import Mathlib

/-!
Verification of the form-field analyzer (`src/main.py`) of
vscan-form-field-analyzer.

The core of the program is `analyze_form_fields(html_content, url)`: it walks
every `<input>` tag inside every `<form>` on the page, normalizes each tag
into a `field_data` record (with per-attribute defaults), applies four
heuristic vulnerability rules, and returns the list of records together with
warning log entries.

Shallow embedding choices:
- HTML parsing (BeautifulSoup) is an external collaborator; the analyzer is
  embedded at the level of the parsed page: a list of forms, each a list of
  input tags, where an input tag is its attribute association list
  (`tag.get(k, d)` with default, `tag.has_attr(k)` presence test).
- Python's `re.match(r"[^@]+@[^@]+\.[^@]+", s)` anchors the pattern at the
  START of `s` (it is not a substring search); `reEmailMatch` embeds exactly
  that prefix-match semantics by exhaustive search over splits, and
  `reEmailSearch` embeds `re.search` (unanchored) semantics for comparison.
- Python's `str.isdigit` is embedded exactly: `pyCharIsdigit` is the set
  of codepoints CPython's `str.isdigit` accepts (enumerated from CPython
  3.11, unicodedata 14.0.0), and `pyIsdigit s` is "nonempty and all
  characters accepted", matching `s.isdigit()` on every string.
- `logging` is embedded as a list of `LogEntry` (numeric level, message)
  returned alongside the results; the process-global logger level (the only
  hidden state the code touches) is `LoggerConfig`, used by `run_analyze`
  to filter which entries are actually emitted.
-/

/-- A parsed `<input>` tag: its attribute association list, in document
order. A parsed BeautifulSoup tag's attributes form a dict, so the lists
that arise from parsing have distinct keys (on duplicate-free lists
`List.find?` agrees with any lookup order); a valueless HTML attribute is
a pair with value `""`. -/
structure InputTag where
  attrs : List (String × String)
deriving DecidableEq

/-- `tag.get(key, default)` of BeautifulSoup: the value of the first
attribute named `key`, or `dflt` when absent. -/
def get_attr (t : InputTag) (key dflt : String) : String :=
  match t.attrs.find? (fun p => p.1 == key) with
  | some p => p.2
  | none => dflt

/-- `tag.has_attr(key)` of BeautifulSoup: is an attribute named `key`
present (its value irrelevant)? -/
def has_attr (t : InputTag) (key : String) : Bool :=
  t.attrs.any (fun p => p.1 == key)

/-- The normalized per-field record built at `src/main.py` lines 45-55
(the `field_data` dictionary). -/
structure FormField where
  name : String
  type : String
  autocomplete : String
  required : Bool
  readonly : Bool
  disabled : Bool
  value : String
  placeholder : String
  vulnerabilities : List String
deriving DecidableEq

/-- Normalization of an input tag (`src/main.py` lines 45-55): each
attribute with its default when absent; `required`/`readonly`/`disabled`
are presence tests. -/
def field_data (t : InputTag) : FormField :=
  { name := get_attr t "name" "N/A"
    type := get_attr t "type" "text"
    autocomplete := get_attr t "autocomplete" "off"
    required := has_attr t "required"
    readonly := has_attr t "readonly"
    disabled := has_attr t "disabled"
    value := get_attr t "value" "N/A"
    placeholder := get_attr t "placeholder" "N/A"
    vulnerabilities := [] }

/-- All splits of a list into a prefix and the remaining suffix, in order
of increasing prefix length. -/
def splits : List Char → List (List Char × List Char)
  | [] => [([], [])]
  | c :: cs => ([], c :: cs) :: (splits cs).map (fun p => (c :: p.1, p.2))

/-- Python `re.match(r"[^@]+@[^@]+\.[^@]+", s)` as a Boolean: does some
PREFIX of `s` (the match is anchored at position 0, trailing characters
free) decompose as `a ++ '@' :: b ++ '.' :: c ++ rest` with `a`, `b`, `c`
nonempty and free of `'@'`? Backtracking is embedded as exhaustive search
over all splits. -/
def reEmailMatch (s : List Char) : Bool :=
  (splits s).any fun p1 =>
    !p1.1.isEmpty && p1.1.all (fun c => c != '@') &&
    match p1.2 with
    | '@' :: r2 =>
      (splits r2).any fun p2 =>
        !p2.1.isEmpty && p2.1.all (fun c => c != '@') &&
        match p2.2 with
        | '.' :: r4 =>
          (splits r4).any fun p3 => !p3.1.isEmpty && p3.1.all (fun c => c != '@')
        | _ => false
    | _ => false

/-- All suffixes of a list, from the whole list down to `[]`. -/
def suffixes : List Char → List (List Char)
  | [] => [[]]
  | c :: cs => (c :: cs) :: suffixes cs

/-- Python `re.search(r"[^@]+@[^@]+\.[^@]+", s)`: an UNANCHORED substring
match, i.e. an anchored match starting at some position of `s`. The code
uses `re.match`, not this; it is defined to compare the two semantics. -/
def reEmailSearch (s : List Char) : Bool :=
  (suffixes s).any reEmailMatch

/-- Python `str.isdigit` at the character level: the exact set of
codepoints CPython accepts (enumerated from CPython 3.11 / unicodedata
14.0.0 over the whole codepoint space; 788 codepoints in 81 contiguous
ranges). These are the characters of Unicode Numeric_Type Decimal — the
decimal digits of every script, e.g. `0`-`9`, Arabic-Indic `٠`-`٩`,
fullwidth `０`-`９` — together with Numeric_Type Digit: digit-valued
characters that are NOT decimal digits, such as superscripts `²`,
subscripts, and circled digits. -/
def pyCharIsdigit (c : Char) : Bool :=
  let n := c.toNat
  (0x30 <= n && n <= 0x39) || (0xb2 <= n && n <= 0xb3) || (0xb9 <= n && n <= 0xb9) ||
    (0x660 <= n && n <= 0x669) || (0x6f0 <= n && n <= 0x6f9) || (0x7c0 <= n && n <= 0x7c9) ||
    (0x966 <= n && n <= 0x96f) || (0x9e6 <= n && n <= 0x9ef) || (0xa66 <= n && n <= 0xa6f) ||
    (0xae6 <= n && n <= 0xaef) || (0xb66 <= n && n <= 0xb6f) || (0xbe6 <= n && n <= 0xbef) ||
    (0xc66 <= n && n <= 0xc6f) || (0xce6 <= n && n <= 0xcef) || (0xd66 <= n && n <= 0xd6f) ||
    (0xde6 <= n && n <= 0xdef) || (0xe50 <= n && n <= 0xe59) || (0xed0 <= n && n <= 0xed9) ||
    (0xf20 <= n && n <= 0xf29) || (0x1040 <= n && n <= 0x1049) || (0x1090 <= n && n <= 0x1099) ||
    (0x1369 <= n && n <= 0x1371) || (0x17e0 <= n && n <= 0x17e9) || (0x1810 <= n && n <= 0x1819) ||
    (0x1946 <= n && n <= 0x194f) || (0x19d0 <= n && n <= 0x19da) || (0x1a80 <= n && n <= 0x1a89) ||
    (0x1a90 <= n && n <= 0x1a99) || (0x1b50 <= n && n <= 0x1b59) || (0x1bb0 <= n && n <= 0x1bb9) ||
    (0x1c40 <= n && n <= 0x1c49) || (0x1c50 <= n && n <= 0x1c59) || (0x2070 <= n && n <= 0x2070) ||
    (0x2074 <= n && n <= 0x2079) || (0x2080 <= n && n <= 0x2089) || (0x2460 <= n && n <= 0x2468) ||
    (0x2474 <= n && n <= 0x247c) || (0x2488 <= n && n <= 0x2490) || (0x24ea <= n && n <= 0x24ea) ||
    (0x24f5 <= n && n <= 0x24fd) || (0x24ff <= n && n <= 0x24ff) || (0x2776 <= n && n <= 0x277e) ||
    (0x2780 <= n && n <= 0x2788) || (0x278a <= n && n <= 0x2792) || (0xa620 <= n && n <= 0xa629) ||
    (0xa8d0 <= n && n <= 0xa8d9) || (0xa900 <= n && n <= 0xa909) || (0xa9d0 <= n && n <= 0xa9d9) ||
    (0xa9f0 <= n && n <= 0xa9f9) || (0xaa50 <= n && n <= 0xaa59) || (0xabf0 <= n && n <= 0xabf9) ||
    (0xff10 <= n && n <= 0xff19) || (0x104a0 <= n && n <= 0x104a9) || (0x10a40 <= n && n <= 0x10a43) ||
    (0x10d30 <= n && n <= 0x10d39) || (0x10e60 <= n && n <= 0x10e68) || (0x11052 <= n && n <= 0x1105a) ||
    (0x11066 <= n && n <= 0x1106f) || (0x110f0 <= n && n <= 0x110f9) || (0x11136 <= n && n <= 0x1113f) ||
    (0x111d0 <= n && n <= 0x111d9) || (0x112f0 <= n && n <= 0x112f9) || (0x11450 <= n && n <= 0x11459) ||
    (0x114d0 <= n && n <= 0x114d9) || (0x11650 <= n && n <= 0x11659) || (0x116c0 <= n && n <= 0x116c9) ||
    (0x11730 <= n && n <= 0x11739) || (0x118e0 <= n && n <= 0x118e9) || (0x11950 <= n && n <= 0x11959) ||
    (0x11c50 <= n && n <= 0x11c59) || (0x11d50 <= n && n <= 0x11d59) || (0x11da0 <= n && n <= 0x11da9) ||
    (0x16a60 <= n && n <= 0x16a69) || (0x16ac0 <= n && n <= 0x16ac9) || (0x16b50 <= n && n <= 0x16b59) ||
    (0x1d7ce <= n && n <= 0x1d7ff) || (0x1e140 <= n && n <= 0x1e149) || (0x1e2f0 <= n && n <= 0x1e2f9) ||
    (0x1e950 <= n && n <= 0x1e959) || (0x1f100 <= n && n <= 0x1f10a) || (0x1fbf0 <= n && n <= 0x1fbf9)

/-- Python `str.isdigit`: nonempty and every character accepted by
`pyCharIsdigit`. -/
def pyIsdigit (s : String) : Bool :=
  !s.toList.isEmpty && s.toList.all pyCharIsdigit

/-- Condition of rule 1 (line 58): `field_data['type'] == 'email' and
field_data['value'] != 'N/A' and not re.match(r"[^@]+@[^@]+\.[^@]+",
field_data['value'])`. -/
def rule1_cond (f : FormField) : Bool :=
  f.type == "email" && f.value != "N/A" && !(reEmailMatch f.value.toList)

/-- Condition of rule 2 (line 60): `field_data['type'] in ('number', 'tel')
and field_data['value'] != 'N/A' and not field_data['value'].isdigit()`. -/
def rule2_cond (f : FormField) : Bool :=
  (f.type == "number" || f.type == "tel") && f.value != "N/A" && !(pyIsdigit f.value)

/-- Condition of rule 3 (line 64): `field_data['type'] in ('password',
'credit-card', 'cvv') and field_data['autocomplete'] != 'off'`. -/
def rule3_cond (f : FormField) : Bool :=
  (f.type == "password" || f.type == "credit-card" || f.type == "cvv")
    && f.autocomplete != "off"

/-- Condition of rule 4 (line 68): `field_data['type'] not in ('hidden',
'submit', 'button') and not field_data['required']`. -/
def rule4_cond (f : FormField) : Bool :=
  !(f.type == "hidden" || f.type == "submit" || f.type == "button") && !f.required

/-- The four heuristic rules of `src/main.py` lines 57-69, applied to a
normalized `field_data` record. Rules 1 and 2 are an `if`/`elif` chain;
rules 3 and 4 are independent `if`s; each triggered rule appends its
message to `vulnerabilities`, in that order. -/
def applyRules (f : FormField) : FormField :=
  let v1 : List String :=
    if rule1_cond f then
      ["Potential missing email validation."]
    else if rule2_cond f then
      ["Potential missing numerical validation."]
    else []
  let v2 : List String :=
    if rule3_cond f then
      ["Autocomplete is enabled for sensitive field of type '" ++ f.type
        ++ "'.  This is generally discouraged"]
    else []
  let v3 : List String :=
    if rule4_cond f then
      ["Missing 'required' attribute. Consider adding for important fields"]
    else []
  { f with vulnerabilities := f.vulnerabilities ++ v1 ++ v2 ++ v3 }

/-- A record the `logging` module would receive: numeric level and message.
Python's `logging.WARNING` is `30`. -/
structure LogEntry where
  level : Nat
  msg : String
deriving DecidableEq

/-- Python `logging.WARNING`. -/
def WARNING : Nat := 30

/-- One iteration of the inner loop of `analyze_form_fields` (lines 44-74):
normalize the tag, apply the rules, log a warning when the field has
vulnerabilities, and append the record to the results. -/
def analyze_step (url : String) (acc : List FormField × List LogEntry)
    (t : InputTag) : List FormField × List LogEntry :=
  let fd := applyRules (field_data t)
  let logs :=
    if fd.vulnerabilities.isEmpty then acc.2
    else acc.2 ++ [⟨WARNING,
      "Potential vulnerabilities found in field '" ++ fd.name ++ "' on " ++ url⟩]
  (acc.1 ++ [fd], logs)

/-- `analyze_form_fields(html_content, url)` (`src/main.py` lines 22-76) at
the parsed-page level: the page is a list of forms, each a list of input
tags. Returns the result list together with the warning log entries. With
no forms it returns `[]` and logs the no-forms warning (lines 39-41). -/
def analyze_form_fields (forms : List (List InputTag)) (url : String) :
    List FormField × List LogEntry :=
  if forms.isEmpty then
    ([], [⟨WARNING, "No forms found on " ++ url⟩])
  else
    forms.foldl (fun acc form => form.foldl (analyze_step url) acc) ([], [])

/-- The process-global logger configuration (`logging.basicConfig` at line 9,
raised to DEBUG by `-v` at line 128): the only hidden mutable state the
analyzer's code touches. -/
structure LoggerConfig where
  level : Nat
deriving DecidableEq

/-- A run of the analyzer under a given logger configuration: the returned
records, and the log lines the `logging` module actually emits (those whose
level reaches the configured threshold). The configuration influences only
the emitted log stream, never the returned records. -/
def run_analyze (cfg : LoggerConfig) (forms : List (List InputTag))
    (url : String) : List FormField × List String :=
  let r := analyze_form_fields forms url
  (r.1, (r.2.filter (fun e => cfg.level ≤ e.level)).map (fun e => e.msg))

/-- Scenario B of the spec: `{type:"email", value:"bad-email", required:false}`. -/
def scenarioB_tag : InputTag := ⟨[("type", "email"), ("value", "bad-email")]⟩

/-- A field whose value contains an (unanchored) occurrence of the email
pattern, but none starting at position 0: `re.search` finds `a@b.c` at
position 1, `re.match` finds nothing. -/
def anchored_cex_tag : InputTag := ⟨[("type", "email"), ("value", "@a@b.c")]⟩

/-- Boundary case of the spec: `type="number"`, `value=""`. -/
def empty_value_number_tag : InputTag := ⟨[("type", "number"), ("value", "")]⟩

/-- A number field whose value is `"²"` (U+00B2 SUPERSCRIPT TWO): not a
decimal digit of any script (Unicode general category No, Numeric_Type
Digit), yet accepted by Python `str.isdigit`. -/
def superscript_number_tag : InputTag := ⟨[("type", "number"), ("value", "²")]⟩

/-- Scenario C of the spec: `{type:"hidden", required:false}`. -/
def hidden_tag : InputTag := ⟨[("type", "hidden")]⟩

/-- An input tag with no attributes at all: every default applies. -/
def no_attrs_tag : InputTag := ⟨[]⟩

/-- A text field named `a`, with `readonly` present. -/
def readonly_named_tag : InputTag := ⟨[("type", "text"), ("name", "a"), ("readonly", "")]⟩

/-- A text field named `b`, without `readonly`. -/
def plain_named_tag : InputTag := ⟨[("type", "text"), ("name", "b")]⟩

/-! ### Basic lemmas -/

theorem field_data_vulns (t : InputTag) : (field_data t).vulnerabilities = [] := rfl

theorem applyRules_vulns (f : FormField) :
    (applyRules f).vulnerabilities =
      f.vulnerabilities
        ++ (if rule1_cond f then ["Potential missing email validation."]
            else if rule2_cond f then ["Potential missing numerical validation."]
            else [])
        ++ (if rule3_cond f then
              ["Autocomplete is enabled for sensitive field of type '" ++ f.type
                ++ "'.  This is generally discouraged"]
            else [])
        ++ (if rule4_cond f then
              ["Missing 'required' attribute. Consider adding for important fields"]
            else []) := rfl

theorem append3_ne_of_short (a b c s : String) (h : s.length < a.length + c.length) :
    a ++ b ++ c ≠ s := by
  intro he
  have hl := congrArg String.length he
  rw [String.length_append, String.length_append] at hl
  omega

theorem ne_append3_of_short (a b c s : String) (h : s.length < a.length + c.length) :
    s ≠ a ++ b ++ c :=
  fun he => append3_ne_of_short a b c s h he.symm

theorem email_ne_num :
    "Potential missing email validation." ≠ "Potential missing numerical validation." := by
  decide

theorem num_ne_email :
    "Potential missing numerical validation." ≠ "Potential missing email validation." :=
  Ne.symm email_ne_num

theorem email_ne_req :
    "Potential missing email validation."
      ≠ "Missing 'required' attribute. Consider adding for important fields" := by
  decide

theorem req_ne_email :
    "Missing 'required' attribute. Consider adding for important fields"
      ≠ "Potential missing email validation." :=
  Ne.symm email_ne_req

theorem num_ne_req :
    "Potential missing numerical validation."
      ≠ "Missing 'required' attribute. Consider adding for important fields" := by
  decide

theorem req_ne_num :
    "Missing 'required' attribute. Consider adding for important fields"
      ≠ "Potential missing numerical validation." :=
  Ne.symm num_ne_req

theorem auto_ne_email (ty : String) :
    "Autocomplete is enabled for sensitive field of type '" ++ ty
      ++ "'.  This is generally discouraged"
      ≠ "Potential missing email validation." :=
  append3_ne_of_short _ _ _ _ (by decide)

theorem email_ne_auto (ty : String) :
    "Potential missing email validation."
      ≠ "Autocomplete is enabled for sensitive field of type '" ++ ty
        ++ "'.  This is generally discouraged" :=
  ne_append3_of_short _ _ _ _ (by decide)

theorem auto_ne_num (ty : String) :
    "Autocomplete is enabled for sensitive field of type '" ++ ty
      ++ "'.  This is generally discouraged"
      ≠ "Potential missing numerical validation." :=
  append3_ne_of_short _ _ _ _ (by decide)

theorem num_ne_auto (ty : String) :
    "Potential missing numerical validation."
      ≠ "Autocomplete is enabled for sensitive field of type '" ++ ty
        ++ "'.  This is generally discouraged" :=
  ne_append3_of_short _ _ _ _ (by decide)

theorem auto_ne_req (ty : String) :
    "Autocomplete is enabled for sensitive field of type '" ++ ty
      ++ "'.  This is generally discouraged"
      ≠ "Missing 'required' attribute. Consider adding for important fields" :=
  append3_ne_of_short _ _ _ _ (by decide)

theorem req_ne_auto (ty : String) :
    "Missing 'required' attribute. Consider adding for important fields"
      ≠ "Autocomplete is enabled for sensitive field of type '" ++ ty
        ++ "'.  This is generally discouraged" :=
  ne_append3_of_short _ _ _ _ (by decide)

theorem rule1_cond_iff (f : FormField) :
    rule1_cond f = true ↔
      (f.type = "email" ∧ f.value ≠ "N/A" ∧ reEmailMatch f.value.toList = false) := by
  simp [rule1_cond, and_assoc]

theorem rule2_cond_iff (f : FormField) :
    rule2_cond f = true ↔
      ((f.type = "number" ∨ f.type = "tel") ∧ f.value ≠ "N/A"
        ∧ pyIsdigit f.value = false) := by
  simp [rule2_cond, and_assoc]

theorem rule3_cond_iff (f : FormField) :
    rule3_cond f = true ↔
      ((f.type = "password" ∨ f.type = "credit-card" ∨ f.type = "cvv")
        ∧ f.autocomplete ≠ "off") := by
  simp [rule3_cond, or_assoc]

theorem rule4_cond_iff (f : FormField) :
    rule4_cond f = true ↔
      (¬(f.type = "hidden" ∨ f.type = "submit" ∨ f.type = "button")
        ∧ f.required = false) := by
  simp [rule4_cond, or_assoc, not_or, and_assoc]

theorem pyIsdigit_eq_true_iff (s : String) :
    pyIsdigit s = true ↔ (s.toList ≠ [] ∧ ∀ c ∈ s.toList, pyCharIsdigit c = true) := by
  simp [pyIsdigit, List.isEmpty_iff, List.all_eq_true]

theorem mem_vulns_email_iff (f : FormField) (hv : f.vulnerabilities = []) :
    "Potential missing email validation." ∈ (applyRules f).vulnerabilities
      ↔ rule1_cond f = true := by
  rw [applyRules_vulns, hv]
  cases h1 : rule1_cond f <;> cases h2 : rule2_cond f <;>
    cases h3 : rule3_cond f <;> cases h4 : rule4_cond f <;>
      simp [email_ne_num, email_ne_req, email_ne_auto]

theorem mem_vulns_num_iff (f : FormField) (hv : f.vulnerabilities = []) :
    "Potential missing numerical validation." ∈ (applyRules f).vulnerabilities
      ↔ (rule1_cond f = false ∧ rule2_cond f = true) := by
  rw [applyRules_vulns, hv]
  cases h1 : rule1_cond f <;> cases h2 : rule2_cond f <;>
    cases h3 : rule3_cond f <;> cases h4 : rule4_cond f <;>
      simp [num_ne_email, num_ne_req, num_ne_auto]

theorem mem_vulns_auto_iff (f : FormField) (hv : f.vulnerabilities = []) :
    ("Autocomplete is enabled for sensitive field of type '" ++ f.type
        ++ "'.  This is generally discouraged") ∈ (applyRules f).vulnerabilities
      ↔ rule3_cond f = true := by
  rw [applyRules_vulns, hv]
  cases h1 : rule1_cond f <;> cases h2 : rule2_cond f <;>
    cases h3 : rule3_cond f <;> cases h4 : rule4_cond f <;>
      simp [auto_ne_email, auto_ne_num, auto_ne_req]

theorem mem_vulns_req_iff (f : FormField) (hv : f.vulnerabilities = []) :
    "Missing 'required' attribute. Consider adding for important fields"
        ∈ (applyRules f).vulnerabilities
      ↔ rule4_cond f = true := by
  rw [applyRules_vulns, hv]
  cases h1 : rule1_cond f <;> cases h2 : rule2_cond f <;>
    cases h3 : rule3_cond f <;> cases h4 : rule4_cond f <;>
      simp [req_ne_email, req_ne_num, req_ne_auto]

theorem get_attr_of_absent (t : InputTag) (k d : String) (h : has_attr t k = false) :
    get_attr t k d = d := by
  unfold get_attr
  cases hf : t.attrs.find? (fun p => p.1 == k) with
  | none => rfl
  | some p =>
    exfalso
    have hp := List.find?_some hf
    have hm := List.mem_of_find?_eq_some hf
    simp only [has_attr] at h
    rw [List.any_eq_false] at h
    have h3 : (p.1 == k) = false := by simpa using h p hm
    simp [h3] at hp

theorem foldl_analyze_step_fst (url : String) (l : List InputTag)
    (acc : List FormField × List LogEntry) :
    (l.foldl (analyze_step url) acc).1
      = acc.1 ++ l.map (fun t => applyRules (field_data t)) := by
  induction l generalizing acc with
  | nil => simp
  | cons t l ih =>
    rw [List.foldl_cons, ih]
    simp [analyze_step]

theorem foldl_forms_fst (url : String) (forms : List (List InputTag))
    (acc : List FormField × List LogEntry) :
    (forms.foldl (fun a form => form.foldl (analyze_step url) a) acc).1
      = acc.1 ++ forms.flatten.map (fun t => applyRules (field_data t)) := by
  induction forms generalizing acc with
  | nil => simp
  | cons form forms ih =>
    rw [List.foldl_cons, ih, foldl_analyze_step_fst]
    simp

theorem analyze_form_fields_fst (forms : List (List InputTag)) (url : String) :
    (analyze_form_fields forms url).1
      = forms.flatten.map (fun t => applyRules (field_data t)) := by
  cases forms with
  | nil => rfl
  | cons form forms =>
    rw [analyze_form_fields]
    simp only [List.isEmpty_cons, Bool.false_eq_true, if_false]
    rw [foldl_forms_fst]
    rfl

theorem vulns_length_le_three (t : InputTag) :
    (applyRules (field_data t)).vulnerabilities.length ≤ 3 := by
  rw [applyRules_vulns, field_data_vulns]
  cases h1 : rule1_cond (field_data t) <;> cases h2 : rule2_cond (field_data t) <;>
    cases h3 : rule3_cond (field_data t) <;> cases h4 : rule4_cond (field_data t) <;>
      simp

theorem exempt_type_conds_false (f : FormField)
    (h : f.type = "hidden" ∨ f.type = "submit" ∨ f.type = "button") :
    rule1_cond f = false ∧ rule2_cond f = false ∧ rule3_cond f = false
      ∧ rule4_cond f = false := by
  rcases h with h | h | h <;>
    simp [rule1_cond, rule2_cond, rule3_cond, rule4_cond, h]

/-! ### Claim theorems -/

/-- C1 counterexample: for the field `{type:"email", value:"@a@b.c"}` the
email rule DOES append its message even though the value contains, starting
at position 1, an unanchored match of `[^@]+@[^@]+\.[^@]+` (namely
`a@b.c`, witnessed by `reEmailSearch = true`). The code uses Python
`re.match`, which anchors the pattern at the start of the string, so the
claimed "unanchored substring match" reading is false: a value whose only
match begins after position 0 still triggers the rule. -/
theorem email_rule_anchored_counterexample :
    "Potential missing email validation."
        ∈ (applyRules (field_data anchored_cex_tag)).vulnerabilities
      ∧ (field_data anchored_cex_tag).type = "email"
      ∧ (field_data anchored_cex_tag).value ≠ "N/A"
      ∧ reEmailSearch (field_data anchored_cex_tag).value.toList = true := by
  decide

/-- C1 (amended): for every input field descriptor analyzed, the email
format rule appends "Potential missing email validation." to the field's
vulnerabilities if and only if the normalized type equals "email", the
normalized value is not the sentinel "N/A", and the value does not match
the regex `[^@]+@[^@]+\.[^@]+` ANCHORED at the start of the string (Python
`re.match`: a match that begins after position 0 does not count). -/
theorem email_rule_trigger_iff (t : InputTag) :
    "Potential missing email validation." ∈ (applyRules (field_data t)).vulnerabilities
      ↔ ((field_data t).type = "email" ∧ (field_data t).value ≠ "N/A"
          ∧ reEmailMatch (field_data t).value.toList = false) := by
  rw [mem_vulns_email_iff (field_data t) (field_data_vulns t), rule1_cond_iff]

/-- C2 counterexample: for the field `{type:"number", value:"²"}` the
numeric rule appends nothing, although rule 1 did not trigger, the type is
"number", the value is not "N/A", and the value is NOT composed entirely
of decimal digit characters: its only character `²` (U+00B2 SUPERSCRIPT
TWO) is not a decimal digit of any script — in particular not `0`-`9`
(fifth conjunct) — its Unicode general category being No and its
Numeric_Type Digit. Line 60's `value.isdigit()` nevertheless returns True
in Python (last conjunct, and CPython confirms), because `str.isdigit`
accepts digit-valued non-decimal characters, so the rule does not fire
and the claimed iff fails at this input. -/
theorem numeric_rule_unicode_counterexample :
    "Potential missing numerical validation."
        ∉ (applyRules (field_data superscript_number_tag)).vulnerabilities
      ∧ "Potential missing email validation."
          ∉ (applyRules (field_data superscript_number_tag)).vulnerabilities
      ∧ (field_data superscript_number_tag).type = "number"
      ∧ (field_data superscript_number_tag).value ≠ "N/A"
      ∧ (∀ c ∈ (field_data superscript_number_tag).value.toList,
          ¬(('0' : Char) ≤ c ∧ c ≤ ('9' : Char)))
      ∧ pyIsdigit (field_data superscript_number_tag).value = true := by
  decide

/-- C2 (amended): the numeric format rule appends "Potential missing
numerical validation." iff rule 1 did not trigger, the type is "number"
or "tel", the value is not "N/A", and the value is NOT accepted by
Python's `str.isdigit`, i.e. it is not nonempty-and-composed-entirely of
isdigit characters (decimal digits of any script together with
digit-valued characters such as superscripts). The empty string counts as
not-digits, so `type="number"`, `value=""` triggers the rule (second
conjunct), while an all-digits value — even one with no ASCII digit —
does not. -/
theorem numeric_rule_trigger_iff :
    (∀ t : InputTag,
      "Potential missing numerical validation."
          ∈ (applyRules (field_data t)).vulnerabilities
        ↔ (¬((field_data t).type = "email" ∧ (field_data t).value ≠ "N/A"
              ∧ reEmailMatch (field_data t).value.toList = false)
            ∧ ((field_data t).type = "number" ∨ (field_data t).type = "tel")
            ∧ (field_data t).value ≠ "N/A"
            ∧ ¬((field_data t).value.toList ≠ []
                ∧ ∀ c ∈ (field_data t).value.toList, pyCharIsdigit c = true)))
    ∧ "Potential missing numerical validation."
        ∈ (applyRules (field_data empty_value_number_tag)).vulnerabilities := by
  constructor
  · intro t
    rw [mem_vulns_num_iff (field_data t) (field_data_vulns t)]
    rw [← Bool.not_eq_true (rule1_cond (field_data t)), rule1_cond_iff, rule2_cond_iff]
    rw [← Bool.not_eq_true (pyIsdigit (field_data t).value), pyIsdigit_eq_true_iff]
  · decide

/-- C3: the sensitive-field autocomplete rule appends exactly the string
"Autocomplete is enabled for sensitive field of type '<type>'.  This is
generally discouraged" (type substituted, double space before "This") iff
the type is one of "password", "credit-card", "cvv" and the autocomplete
value is not "off". -/
theorem autocomplete_rule_trigger_iff (t : InputTag) :
    ("Autocomplete is enabled for sensitive field of type '" ++ (field_data t).type
        ++ "'.  This is generally discouraged")
        ∈ (applyRules (field_data t)).vulnerabilities
      ↔ (((field_data t).type = "password" ∨ (field_data t).type = "credit-card"
            ∨ (field_data t).type = "cvv")
          ∧ (field_data t).autocomplete ≠ "off") := by
  rw [mem_vulns_auto_iff (field_data t) (field_data_vulns t), rule3_cond_iff]

/-- C4: the missing-required rule appends exactly "Missing 'required'
attribute. Consider adding for important fields" iff the type is not one
of "hidden", "submit", "button" and the required flag is false; the
right-hand side mentions none of rules 1-3, so the rule is evaluated
independently of them. -/
theorem required_rule_trigger_iff (t : InputTag) :
    "Missing 'required' attribute. Consider adding for important fields"
        ∈ (applyRules (field_data t)).vulnerabilities
      ↔ (¬((field_data t).type = "hidden" ∨ (field_data t).type = "submit"
            ∨ (field_data t).type = "button")
          ∧ (field_data t).required = false) := by
  rw [mem_vulns_req_iff (field_data t) (field_data_vulns t), rule4_cond_iff]

/-- C5: the vulnerabilities list consists of exactly the messages of the
triggered rules, concatenated in evaluation order 1, 2 (skipped when 1
triggered), 3, 4; and the spec's Scenario B field
`{type:"email", value:"bad-email", required:false}` yields exactly the
email message followed by the required message. -/
theorem vulnerabilities_order :
    (∀ t : InputTag,
      (applyRules (field_data t)).vulnerabilities =
        (if rule1_cond (field_data t) = true
          then ["Potential missing email validation."] else [])
        ++ (if rule1_cond (field_data t) = false ∧ rule2_cond (field_data t) = true
          then ["Potential missing numerical validation."] else [])
        ++ (if rule3_cond (field_data t) = true
          then ["Autocomplete is enabled for sensitive field of type '"
              ++ (field_data t).type ++ "'.  This is generally discouraged"] else [])
        ++ (if rule4_cond (field_data t) = true
          then ["Missing 'required' attribute. Consider adding for important fields"]
          else []))
    ∧ (applyRules (field_data scenarioB_tag)).vulnerabilities =
        ["Potential missing email validation.",
          "Missing 'required' attribute. Consider adding for important fields"] := by
  constructor
  · intro t
    rw [applyRules_vulns, field_data_vulns]
    cases h1 : rule1_cond (field_data t) <;> cases h2 : rule2_cond (field_data t) <;>
      cases h3 : rule3_cond (field_data t) <;> cases h4 : rule4_cond (field_data t) <;>
        simp [h1, h2, h3, h4]
  · decide

/-- C6: every absent attribute takes its defined default — name, value and
placeholder default to "N/A", type to "text", autocomplete to "off" — and
each of required, readonly, disabled equals the presence test of its
attribute (true iff present, whatever its value). -/
theorem field_data_defaults (t : InputTag) :
    (has_attr t "name" = false → (field_data t).name = "N/A")
    ∧ (has_attr t "value" = false → (field_data t).value = "N/A")
    ∧ (has_attr t "placeholder" = false → (field_data t).placeholder = "N/A")
    ∧ (has_attr t "type" = false → (field_data t).type = "text")
    ∧ (has_attr t "autocomplete" = false → (field_data t).autocomplete = "off")
    ∧ (field_data t).required = has_attr t "required"
    ∧ (field_data t).readonly = has_attr t "readonly"
    ∧ (field_data t).disabled = has_attr t "disabled" := by
  refine ⟨fun h => ?_, fun h => ?_, fun h => ?_, fun h => ?_, fun h => ?_, rfl, rfl, rfl⟩
  all_goals exact get_attr_of_absent t _ _ h

/-- Witness for C6 at the attribute-less tag: every default applies. -/
theorem field_data_defaults_witness :
    (field_data no_attrs_tag).name = "N/A"
    ∧ (field_data no_attrs_tag).value = "N/A"
    ∧ (field_data no_attrs_tag).placeholder = "N/A"
    ∧ (field_data no_attrs_tag).type = "text"
    ∧ (field_data no_attrs_tag).autocomplete = "off" := by
  obtain ⟨h1, h2, h3, h4, h5, _, _, _⟩ := field_data_defaults no_attrs_tag
  exact ⟨h1 (by decide), h2 (by decide), h3 (by decide), h4 (by decide), h5 (by decide)⟩

/-- C7: with zero forms the analyzer returns the empty sequence together
with a single WARNING-level (30) log entry naming the source URL, and under
the default logger configuration (INFO = 20, `logging.basicConfig` at line
9) that warning is actually emitted; no failure is possible (the function
is total). -/
theorem no_forms_warning (url : String) :
    analyze_form_fields [] url
        = ([], [⟨WARNING, "No forms found on " ++ url⟩])
    ∧ (run_analyze ⟨20⟩ [] url).1 = []
    ∧ (run_analyze ⟨20⟩ [] url).2 = ["No forms found on " ++ url] := by
  exact ⟨rfl, rfl, rfl⟩

/-- C8: determinism. The returned record sequence is the same under any
two (hidden) logger configurations — the only global state the code
touches — and equals a pure pointwise map over the flattened input tags,
so identical inputs always produce identical output, with no cross-field
or hidden-state dependence. -/
theorem analyzer_deterministic (cfg1 cfg2 : LoggerConfig)
    (forms : List (List InputTag)) (url : String) :
    (run_analyze cfg1 forms url).1 = (run_analyze cfg2 forms url).1
    ∧ (analyze_form_fields forms url).1
        = forms.flatten.map (fun t => applyRules (field_data t)) := by
  exact ⟨rfl, analyze_form_fields_fst forms url⟩

/-- C9: two input tags that normalize to the same type, value, autocomplete
and required flag — i.e. may differ in name, placeholder, readonly,
disabled — receive identical vulnerabilities lists: those four attributes
are recorded in the output but never influence any rule. -/
theorem rules_ignore_cosmetic_attrs (t1 t2 : InputTag)
    (hty : (field_data t1).type = (field_data t2).type)
    (hval : (field_data t1).value = (field_data t2).value)
    (hac : (field_data t1).autocomplete = (field_data t2).autocomplete)
    (hreq : (field_data t1).required = (field_data t2).required) :
    (applyRules (field_data t1)).vulnerabilities
      = (applyRules (field_data t2)).vulnerabilities := by
  rw [applyRules_vulns, applyRules_vulns, field_data_vulns, field_data_vulns]
  simp only [rule1_cond, rule2_cond, rule3_cond, rule4_cond]
  simp only [hty, hval, hac, hreq]

/-- Witness for C9: a `readonly` text field named "a" and a plain text
field named "b" get the same vulnerabilities list. -/
theorem rules_ignore_cosmetic_attrs_witness :
    (applyRules (field_data readonly_named_tag)).vulnerabilities
      = (applyRules (field_data plain_named_tag)).vulnerabilities :=
  rules_ignore_cosmetic_attrs readonly_named_tag plain_named_tag
    (by decide) (by decide) (by decide) (by decide)

/-- C10: a field whose normalized type is "hidden", "submit" or "button"
always comes out with an empty vulnerabilities list (no rule can fire for
those types), and every field's vulnerabilities list has length at most
3. -/
theorem exempt_types_no_findings (t : InputTag) :
    ((field_data t).type = "hidden" ∨ (field_data t).type = "submit"
        ∨ (field_data t).type = "button"
      → (applyRules (field_data t)).vulnerabilities = [])
    ∧ (applyRules (field_data t)).vulnerabilities.length ≤ 3 := by
  refine ⟨fun h => ?_, vulns_length_le_three t⟩
  obtain ⟨h1, h2, h3, h4⟩ := exempt_type_conds_false (field_data t) h
  rw [applyRules_vulns, field_data_vulns, h1, h2, h3, h4]
  simp

/-- Witness for C10: the spec's Scenario C hidden field (required absent)
has no findings. -/
theorem exempt_types_no_findings_witness :
    (applyRules (field_data hidden_tag)).vulnerabilities = [] :=
  (exempt_types_no_findings hidden_tag).1 (by decide)
